import Mathlib

/-!
Verification of the process-info kernel module (`src/proc_info_module.c`)
against its natural-language specification.

The module is embedded shallowly: the process table is a list of records,
the state an explicit read offset, machine-level failures (allocation
failure of the report buffer, failure of the copy to the caller's buffer)
are explicit boolean inputs, and each C function becomes a Lean function
of the same name.
-/

namespace ProcInfo

/-- Kernel errno values used by the module (`-ENOMEM`, `-ENOENT`, `-EFAULT`
are returned as negated values). -/
def ENOMEM : Int := 12

/-- Errno for a missing entry; the module computes `-ENOENT` in the
not-found branch of `read_proc` but overwrites it before returning. -/
def ENOENT : Int := 2

/-- Errno for a failed copy to the caller's buffer. -/
def EFAULT : Int := 14

/-- PAGE_SHIFT for the modelled platform (x86-64: 4096-byte pages). -/
def PAGE_SHIFT : Nat := 12

/-- Point-in-time view of one process (`struct task_struct`, restricted to
the fields the module reads). `parent` is the parent task's pid, `none`
when `task->parent` is NULL. `mm_total_vm` is `task->mm->total_vm`,
`none` when `task->mm` is NULL. -/
structure ProcessRecord where
  pid : Int
  comm : String
  parent : Option Int
  uid : Int
  state : Int
  mm_total_vm : Option Nat
  deriving DecidableEq

/-- Module parameters: `static int upid = -1;` and
`static char upname[TASK_COMM_LEN] = {0};`. -/
structure Config where
  upid : Int
  upname : String
  deriving DecidableEq

/-- The parameter values when neither module parameter is supplied at
load time. -/
def default_config : Config := ⟨-1, ""⟩

/-- Transcription of `get_state_string` (src/proc_info_module.c lines
117-144): a switch on the task state, defaulting to "Unknown". Numeric
values of the state constants follow the source comments
(TASK_RUNNING = 0 through TASK_STATE_MAX = 512). -/
def get_state_string (state : Int) : String :=
  if state = 0 then "Running"
  else if state = 1 then "Interruptible Sleep"
  else if state = 2 then "Uninterruptible Sleep"
  else if state = 4 then "Stopped"
  else if state = 8 then "Traced"
  else if state = 16 then "Zombie"
  else if state = 32 then "Dead (Exit)"
  else if state = 64 then "Dead"
  else if state = 128 then "Wakekill"
  else if state = 256 then "Waking"
  else if state = 512 then "State Max"
  else "Unknown"

/-- Transcription of `get_process_info` (lines 157-171): returns 0 when
the task matches the configured selector, 1 otherwise. When `upid` is
not the sentinel -1 only the pid is compared; otherwise the name is
compared with `strcmp` (exact byte equality). -/
def get_process_info (cfg : Config) (task : ProcessRecord) : Int :=
  if cfg.upid ≠ -1 then
    if task.pid = cfg.upid then 0 else 1
  else
    if task.comm = cfg.upname then 0 else 1

/-- Memory usage computed at the top of `log_process_info` (lines
185-188): 0 unless `task->mm` and `task->mm->total_vm` are non-null, in
which case `total_vm << (PAGE_SHIFT - 10)` as an unsigned long. -/
def memory_usage (task : ProcessRecord) : Nat :=
  match task.mm_total_vm with
  | some tv => if tv ≠ 0 then (tv <<< (PAGE_SHIFT - 10)) % 2 ^ 64 else 0
  | none => 0

/-- Transcription of `log_process_info` (lines 182-201): successive
`sprintf(buffer + strlen(buffer), ...)` appends into the (empty) report
buffer. -/
def log_process_info (task : ProcessRecord) : String :=
  let buffer := ""
  let buffer := buffer ++ ("Name: " ++ task.comm ++ "\n")
  let buffer := buffer ++ ("PID: " ++ toString task.pid ++ "\n")
  let buffer := buffer ++
    ("PPID: " ++ toString (match task.parent with | some p => p | none => -1) ++ "\n")
  let buffer := buffer ++ ("UID: " ++ toString task.uid ++ "\n")
  let buffer := buffer ++ ("Path: /proc/" ++ toString task.pid ++ "\n")
  let buffer := buffer ++ ("State: " ++ get_state_string task.state ++ "\n")
  if task.state = 0 then
    buffer ++ ("Memory usage: " ++ toString (memory_usage task) ++ " KB\n")
  else
    buffer ++ "Memory usage: State is not running.\n"

/-- The `for_each_process` loop of `read_proc` (lines 233-239): scan the
table in enumeration order, stop at the first task for which
`get_process_info` returns 0. -/
def locate (cfg : Config) : List ProcessRecord → Option ProcessRecord
  | [] => none
  | t :: ts => if get_process_info cfg t = 0 then some t else locate cfg ts

/-- Contents of the report buffer after the offset-zero branch of
`read_proc` (lines 231-249): the formatted record on a match, the
not-found message otherwise (by pid when `upid` is set, by name
otherwise). -/
def build_report (cfg : Config) (table : List ProcessRecord) : String :=
  match locate cfg table with
  | some t => log_process_info t
  | none =>
    if cfg.upid ≠ -1 then
      "Error: Process with ID " ++ toString cfg.upid ++ " not found.\n"
    else
      "Error: Process with name " ++ cfg.upname ++ " not found.\n"

/-- Outcome of one read cycle: the returned value (byte count or negative
errno), the file offset after the call, and the bytes delivered to the
caller's buffer. -/
structure ReadResult where
  retval : Int
  newOffset : Int
  delivered : String
  deriving DecidableEq

/-- Transcription of `read_proc` (lines 216-260). `alloc_fail` models
`kmalloc` returning NULL; `copy_fail` models `copy_to_user` failing,
which can only happen when at least one byte is transferred. At a
non-zero offset the buffer stays empty and `strlen` is 0. In the
not-found branch the C sets `retval = -ENOENT` but line 251
unconditionally overwrites it with `strlen(kbuffer)`; the overwrite is
modelled directly. The `count` argument is never consulted, as in the C. -/
def read_proc (cfg : Config) (table : List ProcessRecord) (off : Int)
    (count : Nat) (alloc_fail copy_fail : Bool) : ReadResult :=
  if alloc_fail then ⟨-ENOMEM, off, ""⟩
  else
    let kbuffer := if off = 0 then build_report cfg table else ""
    let retval : Int := (kbuffer.length : Int)
    if copy_fail ∧ kbuffer ≠ "" then ⟨-EFAULT, off, ""⟩
    else ⟨retval, off + retval, kbuffer⟩

/-- Outcome of module activation: the init return value and whether the
/proc endpoint was created. -/
structure InitResult where
  retval : Int
  endpoint_created : Bool
  deriving DecidableEq

/-- Transcription of `proc_info_module_init` (lines 270-280): creates the
/proc entry and returns 0, or `-ENOMEM` when `proc_create` fails. The
module parameters are not inspected. -/
def proc_info_module_init (cfg : Config) (proc_create_fails : Bool) : InitResult :=
  if proc_create_fails then ⟨-ENOMEM, false⟩ else ⟨0, true⟩

/-! ### Helper lemmas -/

/-- The locator finds nothing when no table entry matches. -/
theorem locate_eq_none (cfg : Config) :
    ∀ table : List ProcessRecord,
      (∀ t ∈ table, get_process_info cfg t ≠ 0) → locate cfg table = none := by
  intro table h
  induction table with
  | nil => rfl
  | cons t ts ih =>
      have ht : get_process_info cfg t ≠ 0 := h t (List.mem_cons_self t ts)
      simp only [locate, if_neg ht]
      exact ih fun u hu => h u (List.mem_cons_of_mem t hu)

/-- A formatted record is never empty. -/
theorem log_process_info_length_pos (t : ProcessRecord) :
    0 < (log_process_info t).length := by
  have h6 : ("Name: " : String).length = 6 := rfl
  simp only [log_process_info]
  split <;> simp only [String.length_append] <;> omega

/-- The report built at offset zero is never empty: either a formatted
record or a not-found message. -/
theorem build_report_length_pos (cfg : Config) (table : List ProcessRecord) :
    0 < (build_report cfg table).length := by
  have hid : ("Error: Process with ID " : String).length = 23 := rfl
  have hname : ("Error: Process with name " : String).length = 25 := rfl
  cases h : locate cfg table with
  | some t =>
      simpa only [build_report, h] using log_process_info_length_pos t
  | none =>
      simp only [build_report, h]
      split <;> simp only [String.length_append] <;> omega

/-- Evaluation of a failure-free read at offset zero: the full report is
delivered and the offset advances by its length. -/
theorem read_proc_zero_ok (cfg : Config) (table : List ProcessRecord) (count : Nat) :
    read_proc cfg table 0 count false false =
      ⟨((build_report cfg table).length : Int),
       ((build_report cfg table).length : Int),
       build_report cfg table⟩ := by
  simp [read_proc]

/-! ### Claim theorems -/

/-- C1: One-shot read protocol. For every selector and table, a read at
cursor zero (no allocation or copy failure) returns a positive byte
count and advances the cursor to that count; once the cursor is past
zero, every read on that handle returns zero bytes, delivers nothing and
leaves the cursor unchanged, for every selector and table (so the
locator's result is irrelevant). A freshly opened handle starts at
cursor zero by the host file-system contract. -/
theorem read_one_shot (cfg cfg' : Config) (table table' : List ProcessRecord)
    (count count' : Nat) (off : Int) (hoff : 0 < off) :
    0 < (read_proc cfg table 0 count false false).retval ∧
    (read_proc cfg table 0 count false false).newOffset =
      (read_proc cfg table 0 count false false).retval ∧
    (read_proc cfg' table' off count' false false).retval = 0 ∧
    (read_proc cfg' table' off count' false false).delivered = "" ∧
    (read_proc cfg' table' off count' false false).newOffset = off := by
  have hne : off ≠ 0 := by omega
  have hpos := build_report_length_pos cfg table
  refine ⟨?_, ?_, ?_, ?_, ?_⟩ <;> first
    | (simp [read_proc, hne]; omega)
    | simp [read_proc, hne]

/-- Witness for `read_one_shot` at a concrete selector, table and offset. -/
theorem read_one_shot_witness :
    (0 : Int) < 1 ∧
    (0 < (read_proc ⟨1, ""⟩ [] 0 4096 false false).retval ∧
     (read_proc ⟨1, ""⟩ [] 0 4096 false false).newOffset =
       (read_proc ⟨1, ""⟩ [] 0 4096 false false).retval ∧
     (read_proc ⟨-1, "bash"⟩ [] 1 4096 false false).retval = 0 ∧
     (read_proc ⟨-1, "bash"⟩ [] 1 4096 false false).delivered = "" ∧
     (read_proc ⟨-1, "bash"⟩ [] 1 4096 false false).newOffset = 1) :=
  ⟨by decide, read_one_shot ⟨1, ""⟩ ⟨-1, "bash"⟩ [] [] 4096 4096 1 (by decide)⟩

/-- C8: The state-to-text mapping sends each of the eleven enumerated
scheduling states to exactly its listed text and every other value to
"Unknown". -/
theorem state_string_table :
    get_state_string 0 = "Running" ∧
    get_state_string 1 = "Interruptible Sleep" ∧
    get_state_string 2 = "Uninterruptible Sleep" ∧
    get_state_string 4 = "Stopped" ∧
    get_state_string 8 = "Traced" ∧
    get_state_string 16 = "Zombie" ∧
    get_state_string 32 = "Dead (Exit)" ∧
    get_state_string 64 = "Dead" ∧
    get_state_string 128 = "Wakekill" ∧
    get_state_string 256 = "Waking" ∧
    get_state_string 512 = "State Max" ∧
    ∀ s : Int, s ∉ ([0, 1, 2, 4, 8, 16, 32, 64, 128, 256, 512] : List Int) →
      get_state_string s = "Unknown" := by
  refine ⟨rfl, rfl, rfl, rfl, rfl, rfl, rfl, rfl, rfl, rfl, rfl, ?_⟩
  intro s hs
  simp only [List.mem_cons, List.not_mem_nil, or_false] at hs
  push_neg at hs
  obtain ⟨h0, h1, h2, h4, h8, h16, h32, h64, h128, h256, h512⟩ := hs
  unfold get_state_string
  rw [if_neg h0, if_neg h1, if_neg h2, if_neg h4, if_neg h8, if_neg h16,
    if_neg h32, if_neg h64, if_neg h128, if_neg h256, if_neg h512]

/-- Witness for `state_string_table` at the out-of-table value 3. -/
theorem state_string_table_witness :
    (3 : Int) ∉ ([0, 1, 2, 4, 8, 16, 32, 64, 128, 256, 512] : List Int) ∧
    get_state_string 3 = "Unknown" :=
  ⟨by decide, state_string_table.2.2.2.2.2.2.2.2.2.2.2 3 (by decide)⟩

/-- C2 counterexample: activation with both selectors set (upid 5 and
upname "bash"), and activation with neither set (the parameter
defaults), both return 0 and create the endpoint — refuting the claim
that activation fails with InvalidSelector in those cases. -/
theorem init_validation_counterexample :
    (proc_info_module_init ⟨5, "bash"⟩ false).retval = 0 ∧
    (proc_info_module_init ⟨5, "bash"⟩ false).endpoint_created = true ∧
    (proc_info_module_init ⟨-1, ""⟩ false).retval = 0 ∧
    (proc_info_module_init ⟨-1, ""⟩ false).endpoint_created = true := by
  decide

/-- C2 amended: activation performs no selector validation at all. Init
does not inspect the parameters — its outcome is the same for every
configuration — and whenever the endpoint can be created it returns 0
and creates it, for both-set, neither-set and one-set configurations
alike. -/
theorem init_no_validation (cfg : Config) (b : Bool) :
    proc_info_module_init cfg b = proc_info_module_init default_config b ∧
    (proc_info_module_init cfg false).retval = 0 ∧
    (proc_info_module_init cfg false).endpoint_created = true :=
  ⟨rfl, rfl, rfl⟩

/-- C3: a not-found condition is surfaced as ordinary payload. When no
table entry has pid `n` (with `n ≥ 0` set as the selector), the first
read delivers exactly the ID-not-found message and returns its length, a
positive count; analogously for a name selector `s` matching no entry.
The return value is never negative in the not-found case. -/
theorem not_found_payload (n : Int) (s sname : String)
    (tableA tableB : List ProcessRecord) (count : Nat)
    (hn : 0 ≤ n)
    (hA : ∀ t ∈ tableA, t.pid ≠ n)
    (hB : ∀ t ∈ tableB, t.comm ≠ s) :
    ((read_proc ⟨n, sname⟩ tableA 0 count false false).delivered =
        "Error: Process with ID " ++ toString n ++ " not found.\n" ∧
     (read_proc ⟨n, sname⟩ tableA 0 count false false).retval =
        (("Error: Process with ID " ++ toString n ++ " not found.\n").length : Int) ∧
     0 < (read_proc ⟨n, sname⟩ tableA 0 count false false).retval) ∧
    ((read_proc ⟨-1, s⟩ tableB 0 count false false).delivered =
        "Error: Process with name " ++ s ++ " not found.\n" ∧
     (read_proc ⟨-1, s⟩ tableB 0 count false false).retval =
        (("Error: Process with name " ++ s ++ " not found.\n").length : Int) ∧
     0 < (read_proc ⟨-1, s⟩ tableB 0 count false false).retval) := by
  have hn1 : n ≠ -1 := by omega
  have hid : ("Error: Process with ID " : String).length = 23 := rfl
  have hnm : ("Error: Process with name " : String).length = 25 := rfl
  have hlocA : locate ⟨n, sname⟩ tableA = none := by
    apply locate_eq_none
    intro t ht
    simp [get_process_info, hn1, hA t ht]
  have hlocB : locate ⟨-1, s⟩ tableB = none := by
    apply locate_eq_none
    intro t ht
    simp [get_process_info, hB t ht]
  have hbA : build_report ⟨n, sname⟩ tableA =
      "Error: Process with ID " ++ toString n ++ " not found.\n" := by
    simp [build_report, hlocA, hn1]
  have hbB : build_report ⟨-1, s⟩ tableB =
      "Error: Process with name " ++ s ++ " not found.\n" := by
    simp [build_report, hlocB]
  constructor
  · rw [read_proc_zero_ok, hbA]
    refine ⟨rfl, rfl, ?_⟩
    have hp : 0 < ("Error: Process with ID " ++ toString n ++ " not found.\n").length := by
      simp only [String.length_append]
      omega
    show (0 : Int) < (("Error: Process with ID " ++ toString n ++ " not found.\n").length : Int)
    exact_mod_cast hp
  · rw [read_proc_zero_ok, hbB]
    refine ⟨rfl, rfl, ?_⟩
    have hp : 0 < ("Error: Process with name " ++ s ++ " not found.\n").length := by
      simp only [String.length_append]
      omega
    show (0 : Int) < (("Error: Process with name " ++ s ++ " not found.\n").length : Int)
    exact_mod_cast hp

/-- Witness for `not_found_payload`: pid 999 and name "zzz" are absent
from a one-entry table. -/
theorem not_found_payload_witness :
    (0 : Int) ≤ 999 ∧
    (∀ t ∈ [(⟨1, "systemd", none, 0, 0, none⟩ : ProcessRecord)], t.pid ≠ 999) ∧
    (∀ t ∈ [(⟨1, "systemd", none, 0, 0, none⟩ : ProcessRecord)], t.comm ≠ "zzz") ∧
    (read_proc ⟨999, ""⟩ [⟨1, "systemd", none, 0, 0, none⟩] 0 4096 false false).delivered =
      "Error: Process with ID " ++ toString (999 : Int) ++ " not found.\n" ∧
    (read_proc ⟨-1, "zzz"⟩ [⟨1, "systemd", none, 0, 0, none⟩] 0 4096 false false).delivered =
      "Error: Process with name " ++ "zzz" ++ " not found.\n" := by
  refine ⟨by decide, by decide, by decide, ?_, ?_⟩
  · exact (not_found_payload 999 "zzz" "" [⟨1, "systemd", none, 0, 0, none⟩]
      [⟨1, "systemd", none, 0, 0, none⟩] 4096 (by decide) (by decide) (by decide)).1.1
  · exact (not_found_payload 999 "zzz" "" [⟨1, "systemd", none, 0, 0, none⟩]
      [⟨1, "systemd", none, 0, 0, none⟩] 4096 (by decide) (by decide) (by decide)).2.1

/-- C5: first-match semantics. If nothing in `pre` matches and `t`
matches, the scan over `pre ++ t :: post` stops at `t`, and its result
does not depend on what follows `t` (entries after the first match are
never examined); if nothing in `table` matches, the scan returns none. -/
theorem locate_first_match (cfg : Config) (pre post post' table : List ProcessRecord)
    (t : ProcessRecord) :
    ((∀ u ∈ pre, get_process_info cfg u ≠ 0) → get_process_info cfg t = 0 →
      locate cfg (pre ++ t :: post) = some t ∧
      locate cfg (pre ++ t :: post) = locate cfg (pre ++ t :: post')) ∧
    ((∀ u ∈ table, get_process_info cfg u ≠ 0) → locate cfg table = none) := by
  constructor
  · intro hpre ht
    have key : ∀ pre₀ : List ProcessRecord, (∀ u ∈ pre₀, get_process_info cfg u ≠ 0) →
        ∀ post₀, locate cfg (pre₀ ++ t :: post₀) = some t := by
      intro pre₀
      induction pre₀ with
      | nil =>
          intro _ post₀
          simp [locate, ht]
      | cons u us ih =>
          intro h post₀
          have hu : get_process_info cfg u ≠ 0 := h u (List.mem_cons_self u us)
          simp only [List.cons_append, locate, if_neg hu]
          exact ih (fun v hv => h v (List.mem_cons_of_mem u hv)) post₀
    exact ⟨key pre hpre post, (key pre hpre post).trans (key pre hpre post').symm⟩
  · exact locate_eq_none cfg table

/-- Witness for `locate_first_match`: with selector pid 5, the scan over
a table holding pid 3, then pid 5 named "y", then a duplicate pid 5
named "z" stops at the first pid-5 entry; a table holding only pid 3
yields none. -/
theorem locate_first_match_witness :
    locate ⟨5, ""⟩ ([⟨3, "x", none, 0, 0, none⟩] ++
        ⟨5, "y", none, 0, 0, none⟩ :: [⟨5, "z", none, 0, 0, none⟩]) =
      some ⟨5, "y", none, 0, 0, none⟩ ∧
    locate ⟨5, ""⟩ [⟨3, "x", none, 0, 0, none⟩] = none :=
  ⟨((locate_first_match ⟨5, ""⟩ [⟨3, "x", none, 0, 0, none⟩] [⟨5, "z", none, 0, 0, none⟩]
      [] [⟨3, "x", none, 0, 0, none⟩] ⟨5, "y", none, 0, 0, none⟩).1
        (by decide) (by decide)).1,
   (locate_first_match ⟨5, ""⟩ [⟨3, "x", none, 0, 0, none⟩] [⟨5, "z", none, 0, 0, none⟩]
      [] [⟨3, "x", none, 0, 0, none⟩] ⟨5, "y", none, 0, 0, none⟩).2 (by decide)⟩

/-- C6: the match predicate is exact. With the integer selector set,
a task matches iff its pid equals it; with it unset, a task matches iff
its name is byte-for-byte equal to the configured string; any unequal
string — in particular a strict substring (some surrounding context is
non-empty), or a case variant that differs from the name — does not
match. -/
theorem match_predicate_exact (n : Int) (s cfgname : String) (t : ProcessRecord)
    (hn : n ≠ -1) :
    (get_process_info ⟨n, cfgname⟩ t = 0 ↔ t.pid = n) ∧
    (get_process_info ⟨-1, s⟩ t = 0 ↔ t.comm = s) ∧
    (s ≠ t.comm → get_process_info ⟨-1, s⟩ t = 1) ∧
    (∀ u v : String, u ++ s ++ v = t.comm → s ≠ t.comm →
      get_process_info ⟨-1, s⟩ t = 1) ∧
    (s.toLower = t.comm.toLower → s ≠ t.comm → get_process_info ⟨-1, s⟩ t = 1) := by
  have hmain : s ≠ t.comm → get_process_info ⟨-1, s⟩ t = 1 := by
    intro hne
    have : t.comm ≠ s := fun h => hne h.symm
    simp [get_process_info, this]
  refine ⟨?_, ?_, hmain, fun u v _ => hmain, fun _ => hmain⟩
  · by_cases h : t.pid = n <;> simp [get_process_info, hn, h]
  · by_cases h : t.comm = s <;> simp [get_process_info, h]

/-- Witness for `match_predicate_exact`: the strict substring "bas" does
not match the name "bash". -/
theorem match_predicate_exact_witness :
    (5 : Int) ≠ -1 ∧
    get_process_info ⟨-1, "bas"⟩ ⟨5, "bash", none, 0, 0, none⟩ = 1 :=
  ⟨by decide,
   (match_predicate_exact 5 "bas" "" ⟨5, "bash", none, 0, 0, none⟩
      (by decide)).2.2.1 (by decide)⟩

/-- One specified report line: payload followed by the newline
terminator (spec 4.3: each line newline-terminated). -/
def spec_line (s : String) : String := s ++ "\n"

/-- Report format as the specification words it (4.3, match case): one
newline-terminated line per field in the fixed order Name, PID, PPID
(parent pid or -1), UID, Path, State, then exactly one memory line,
numeric iff the state is Running. Spec-side definition, to be compared
with `log_process_info`. -/
def report_spec (t : ProcessRecord) : String :=
  spec_line ("Name: " ++ t.comm) ++
  spec_line ("PID: " ++ toString t.pid) ++
  spec_line ("PPID: " ++ toString (match t.parent with | some p => p | none => -1)) ++
  spec_line ("UID: " ++ toString t.uid) ++
  spec_line ("Path: /proc/" ++ toString t.pid) ++
  spec_line ("State: " ++ get_state_string t.state) ++
  (if t.state = 0 then
    spec_line ("Memory usage: " ++ toString (memory_usage t) ++ " KB")
  else
    spec_line ("Memory usage: State is not running."))

/-- C4: the formatter emits exactly the specified report — the six field
lines in the fixed order followed by exactly one memory line, which is
the numeric KB line iff the state is Running (state 0) and the literal
placeholder otherwise, never both. -/
theorem report_format (t : ProcessRecord) :
    log_process_info t = report_spec t ∧
    (t.state = 0 → ∃ p : String, log_process_info t =
      p ++ spec_line ("Memory usage: " ++ toString (memory_usage t) ++ " KB")) ∧
    (t.state ≠ 0 → ∃ p : String, log_process_info t =
      p ++ spec_line ("Memory usage: State is not running.")) ∧
    spec_line ("Memory usage: " ++ toString (memory_usage t) ++ " KB") ≠
      spec_line ("Memory usage: State is not running.") := by
  refine ⟨?_, ?_, ?_, ?_⟩
  · unfold log_process_info report_spec spec_line
    by_cases h : t.state = 0 <;>
      simp [h, String.empty_append, String.append_assoc]
  · intro h
    refine ⟨"Name: " ++ t.comm ++ "\n" ++ ("PID: " ++ toString t.pid ++ "\n") ++
      ("PPID: " ++ toString (match t.parent with | some p => p | none => -1) ++ "\n") ++
      ("UID: " ++ toString t.uid ++ "\n") ++ ("Path: /proc/" ++ toString t.pid ++ "\n") ++
      ("State: " ++ get_state_string t.state ++ "\n"), ?_⟩
    unfold log_process_info spec_line
    simp [h, String.empty_append, String.append_assoc]
  · intro h
    refine ⟨"Name: " ++ t.comm ++ "\n" ++ ("PID: " ++ toString t.pid ++ "\n") ++
      ("PPID: " ++ toString (match t.parent with | some p => p | none => -1) ++ "\n") ++
      ("UID: " ++ toString t.uid ++ "\n") ++ ("Path: /proc/" ++ toString t.pid ++ "\n") ++
      ("State: " ++ get_state_string t.state ++ "\n"), ?_⟩
    unfold log_process_info spec_line
    simp [h, String.empty_append, String.append_assoc]
  · intro h
    have hd := congrArg (fun s : String => s.data.reverse) h
    simp only [spec_line, String.data_append, List.reverse_append] at hd
    simp at hd

/-- Witness for `report_format`: a concrete running process and a
concrete sleeping process each produce the corresponding memory line. -/
theorem report_format_witness :
    log_process_info ⟨1, "systemd", none, 0, 0, some 1024⟩ =
      report_spec ⟨1, "systemd", none, 0, 0, some 1024⟩ ∧
    ((1 : Int) ≠ 0 → ∃ p : String,
      log_process_info ⟨2, "kthreadd", some 0, 0, 1, none⟩ =
        p ++ spec_line ("Memory usage: State is not running.")) :=
  ⟨(report_format ⟨1, "systemd", none, 0, 0, some 1024⟩).1,
   fun _ => (report_format ⟨2, "kthreadd", some 0, 0, 1, none⟩).2.2.1 (by decide)⟩

/-- C7: read-cycle failure behaviour. Every read either fails with a
negative status, leaving the cursor unchanged and delivering nothing, or
succeeds, delivering its full payload and advancing the cursor by
exactly the returned byte count (atomicity). Allocation failure yields
`-ENOMEM` with the cursor unchanged (and, the state being per-handle, no
other handle is touched); a copy failure on a payload-bearing read
yields `-EFAULT` with the cursor unchanged. -/
theorem read_failure_atomic (cfg : Config) (table : List ProcessRecord)
    (off : Int) (count : Nat) (af cf : Bool) :
    ((read_proc cfg table off count af cf).retval < 0 ∧
       (read_proc cfg table off count af cf).newOffset = off ∧
       (read_proc cfg table off count af cf).delivered = "" ∨
     0 ≤ (read_proc cfg table off count af cf).retval ∧
       ((read_proc cfg table off count af cf).delivered.length : Int) =
         (read_proc cfg table off count af cf).retval ∧
       (read_proc cfg table off count af cf).newOffset =
         off + (read_proc cfg table off count af cf).retval) ∧
    (af = true →
      (read_proc cfg table off count af cf).retval = -ENOMEM ∧
      (read_proc cfg table off count af cf).newOffset = off) ∧
    (af = false → cf = true → off = 0 →
      (read_proc cfg table off count af cf).retval = -EFAULT ∧
      (read_proc cfg table off count af cf).newOffset = off ∧
      (read_proc cfg table off count af cf).delivered = "") := by
  cases af with
  | true =>
      refine ⟨Or.inl ?_, fun _ => ?_, fun hf => absurd hf (by decide)⟩
      · exact ⟨by simp [read_proc, ENOMEM], by simp [read_proc], by simp [read_proc]⟩
      · exact ⟨by simp [read_proc], by simp [read_proc]⟩
  | false =>
      cases cf with
      | false =>
          refine ⟨Or.inr ?_, fun hf => absurd hf (by decide),
            fun _ hf _ => absurd hf (by decide)⟩
          by_cases hoff : off = 0
          · subst hoff
            rw [read_proc_zero_ok]
            refine ⟨by positivity, rfl, by simp⟩
          · simp [read_proc, hoff]
      | true =>
          by_cases hoff : off = 0
          · subst hoff
            have hne : build_report cfg table ≠ "" := by
              intro hemp
              have hpos := build_report_length_pos cfg table
              rw [hemp] at hpos
              simp at hpos
            refine ⟨Or.inl ?_, fun hf => absurd hf (by decide), fun _ _ _ => ?_⟩
            · exact ⟨by simp [read_proc, hne, EFAULT], by simp [read_proc, hne],
                by simp [read_proc, hne]⟩
            · exact ⟨by simp [read_proc, hne], by simp [read_proc, hne],
                by simp [read_proc, hne]⟩
          · refine ⟨Or.inr ?_, fun hf => absurd hf (by decide),
              fun _ _ h0 => absurd h0 hoff⟩
            simp [read_proc, hoff]

/-- Witness for `read_failure_atomic`: allocation failure and copy
failure at a concrete selector, empty table and offset zero. -/
theorem read_failure_atomic_witness :
    ((read_proc ⟨1, ""⟩ [] 0 4096 true false).retval = -ENOMEM ∧
     (read_proc ⟨1, ""⟩ [] 0 4096 true false).newOffset = 0) ∧
    ((read_proc ⟨1, ""⟩ [] 0 4096 false true).retval = -EFAULT ∧
     (read_proc ⟨1, ""⟩ [] 0 4096 false true).newOffset = 0 ∧
     (read_proc ⟨1, ""⟩ [] 0 4096 false true).delivered = "") :=
  ⟨(read_failure_atomic ⟨1, ""⟩ [] 0 4096 true false).2.1 rfl,
   (read_failure_atomic ⟨1, ""⟩ [] 0 4096 false true).2.2 rfl rfl rfl⟩

/-- C9 counterexample: with neither parameter supplied (upid -1, upname
empty), a table containing a process whose name is the empty string
makes the offset-zero read deliver that process's report, not the
name-not-found message — refuting the claim that every such read yields
the not-found message. -/
theorem pid_precedence_counterexample :
    (read_proc ⟨-1, ""⟩ [⟨7, "", none, 0, 0, none⟩] 0 4096 false false).delivered =
      log_process_info ⟨7, "", none, 0, 0, none⟩ ∧
    (read_proc ⟨-1, ""⟩ [⟨7, "", none, 0, 0, none⟩] 0 4096 false false).delivered ≠
      "Error: Process with name " ++ "" ++ " not found.\n" := by
  constructor
  · rfl
  · decide

/-- C9 amended: with the integer selector set (not -1) the locator
matches exclusively by pid — its verdict is independent of the stored
name string — and with it unset it matches by name against whatever
string is stored, including the empty string; when no name was supplied,
a read at offset zero yields the name-not-found message provided no
process in the table has the empty string as its name (an empty-named
process would itself match the empty selector). -/
theorem pid_precedence (n : Int) (s s' : String) (t : ProcessRecord)
    (table : List ProcessRecord) (count : Nat) (hn : n ≠ -1)
    (hempty : ∀ u ∈ table, u.comm ≠ "") :
    get_process_info ⟨n, s⟩ t = get_process_info ⟨n, s'⟩ t ∧
    get_process_info ⟨n, s⟩ t = (if t.pid = n then 0 else 1) ∧
    get_process_info ⟨-1, s⟩ t = (if t.comm = s then 0 else 1) ∧
    (read_proc ⟨-1, ""⟩ table 0 count false false).delivered =
      "Error: Process with name " ++ "" ++ " not found.\n" := by
  have hloc : locate ⟨-1, ""⟩ table = none := by
    apply locate_eq_none
    intro u hu
    simp [get_process_info, hempty u hu]
  refine ⟨?_, ?_, ?_, ?_⟩
  · simp [get_process_info, hn]
  · simp [get_process_info, hn]
  · simp [get_process_info]
  · rw [read_proc_zero_ok]
    simp [build_report, hloc]

/-- Witness for `pid_precedence`: selector pid 7 with stray names "a"
and "b", one nonempty-named table entry. -/
theorem pid_precedence_witness :
    get_process_info ⟨7, "a"⟩ ⟨7, "bash", none, 0, 0, none⟩ =
      get_process_info ⟨7, "b"⟩ ⟨7, "bash", none, 0, 0, none⟩ ∧
    (read_proc ⟨-1, ""⟩ [⟨1, "systemd", none, 0, 0, none⟩] 0 4096 false false).delivered =
      "Error: Process with name " ++ "" ++ " not found.\n" :=
  ⟨(pid_precedence 7 "a" "b" ⟨7, "bash", none, 0, 0, none⟩
      [⟨1, "systemd", none, 0, 0, none⟩] 4096 (by decide) (by decide)).1,
   (pid_precedence 7 "a" "b" ⟨7, "bash", none, 0, 0, none⟩
      [⟨1, "systemd", none, 0, 0, none⟩] 4096 (by decide) (by decide)).2.2.2⟩

/-- C10: the read interface never bounds the transfer by the caller's
`count`: the read outcome is entirely independent of `count`, and at
offset zero the delivered payload is always the full report with the
full length reported — in particular even when the report is longer
than `count`. -/
theorem read_ignores_count (cfg : Config) (table : List ProcessRecord)
    (off : Int) (count countB : Nat) (af cf : Bool) :
    read_proc cfg table off count af cf = read_proc cfg table off countB af cf ∧
    (count < (build_report cfg table).length →
      (read_proc cfg table 0 count false false).delivered = build_report cfg table ∧
      (read_proc cfg table 0 count false false).retval =
        ((build_report cfg table).length : Int)) := by
  refine ⟨rfl, fun _ => ?_⟩
  rw [read_proc_zero_ok]
  exact ⟨rfl, rfl⟩

/-- Witness for `read_ignores_count`: a report 36 bytes long is fully
delivered to a read asking for a single byte. -/
theorem read_ignores_count_witness :
    1 < (build_report ⟨1, ""⟩ []).length ∧
    (read_proc ⟨1, ""⟩ [] 0 1 false false).delivered = build_report ⟨1, ""⟩ [] ∧
    (read_proc ⟨1, ""⟩ [] 0 1 false false).retval =
      ((build_report ⟨1, ""⟩ []).length : Int) :=
  ⟨by decide, (read_ignores_count ⟨1, ""⟩ [] 0 1 4096 false false).2 (by decide)⟩

end ProcInfo
